import Mathlib

/-!
Shallow embedding of `src/apns.ts` (FiveSheepCo/cloudflare-apns2): an APNs
HTTP/2 push-notification client.  Pure data and functions mirror the
TypeScript source; time is passed explicitly (the JS code reads `Date.now()`),
the JWT signing primitive is a function parameter, and the HTTP transport is
represented by response data handed to the classifier.
-/

namespace Apns

/-- `API_VERSION` constant from apns.ts. -/
def API_VERSION : Nat := 3

/-- `SIGNING_ALGORITHM` constant from apns.ts. -/
def SIGNING_ALGORITHM : String := "ES256"

/-- `RESET_TOKEN_INTERVAL_MS` constant from apns.ts: 55 minutes in ms. -/
def RESET_TOKEN_INTERVAL_MS : Nat := 55 * 60 * 1000

/-- `Host` enum from apns.ts: production host string. -/
def Host.production : String := "api.push.apple.com"

/-- `Host` enum from apns.ts: development host string. -/
def Host.development : String := "api.sandbox.push.apple.com"

/-- `SigningToken` interface from apns.ts: token value plus mint timestamp
in milliseconds. -/
structure SigningToken where
  value : String
  timestamp : Nat
deriving DecidableEq, Repr

/-- Expiration input, per the source: either a raw epoch-seconds number or a
calendar instant (a JS `Date`, represented by its `getTime()` millisecond
epoch). -/
inductive Expiration where
  | seconds (n : Nat)
  | date (ms : Nat)
deriving DecidableEq, Repr

/-- Modelled from the spec: the notification options bag (the notification
model lives in `notifications/notification.js`, which is not under src/).
Optional `topic`, `expiration`, `collapseId`. -/
structure NotificationOptions where
  topic : Option String := none
  expiration : Option Expiration := none
  collapseId : Option String := none
deriving DecidableEq, Repr

/-- Modelled from the spec: `Priority.immediate` sentinel from
`notifications/notification.js` (not under src/); non-immediate priorities
are serialized into a header. -/
def Priority.immediate : Nat := 10

/-- Modelled from the spec: a notification (external entity, consumed
read-only) exposes a device token, a push type, a numeric priority, an
options bag, and a JSON-serializable payload (here the already-serialized
result of `JSON.stringify(notification.buildApnsOptions())`). -/
structure Notification where
  deviceToken : String
  pushType : String
  priority : Nat
  options : NotificationOptions
  payload : String
deriving DecidableEq, Repr

/-- Modelled from the spec: reason-code constants from `errors.js` (not under
src/).  The expired-provider-token reason. -/
def Errors.expiredProviderToken : String := "ExpiredProviderToken"

/-- Modelled from the spec: the catch-all reason used when a response body
fails to parse. -/
def Errors.unknownError : String := "Unknown error"

/-- Modelled from the spec: the name of the generic error channel. -/
def Errors.error : String := "error"

/-- `ApnsResponseError` shape: the JSON error body returned by APNs. -/
structure ApnsResponseError where
  reason : String
  timestamp : Option Nat
deriving DecidableEq, Repr

/-- Modelled from the spec: `ApnsError` from `errors.js` (not under src/),
the DeliveryError carrying status code, the rejected notification, the
reason string and the body timestamp. -/
structure ApnsError where
  statusCode : Nat
  notification : Notification
  reason : String
  timestamp : Option Nat
deriving DecidableEq, Repr

/-- `ApnsOptions` interface from apns.ts (construction parameters). -/
structure ApnsOptions where
  team : String
  signingKey : String
  keyId : String
  defaultTopic : Option String := none
  host : Option String := none
  requestTimeout : Option Nat := none
  keepAlive : Option Bool := none
deriving DecidableEq, Repr

/-- The `ApnsClient` instance state: the readonly configuration fields plus
the mutable `_token` cache. -/
structure ApnsClient where
  team : String
  keyId : String
  signingKey : String
  defaultTopic : Option String
  host : String
  keepAlive : Bool
  token : Option SigningToken
deriving DecidableEq, Repr

/-- The `ApnsClient` constructor: copies options, defaults `host` to
production and `keepAlive` to true, starts with no cached token.
`requestTimeout` is never read. -/
def mkApnsClient (options : ApnsOptions) : ApnsClient :=
  { team := options.team
    keyId := options.keyId
    signingKey := options.signingKey
    defaultTopic := options.defaultTopic
    host := options.host.getD Host.production
    keepAlive := options.keepAlive.getD true
    token := none }

/-- The config record handed to `createSigner` in `_getSigningToken`:
key material, algorithm, key id. -/
structure SignerConfig where
  key : String
  algorithm : String
  kid : String
deriving DecidableEq, Repr

/-- The JWT claims built in `_getSigningToken`. -/
structure Claims where
  iss : String
  iat : Nat
deriving DecidableEq, Repr

/-- A record of one invocation of the signing primitive. -/
structure SignCall where
  config : SignerConfig
  claims : Claims
deriving DecidableEq, Repr

/-- Result of `_getSigningToken`: the returned string, the `_token` field
afterwards, and the signature calls made. -/
structure GetTokenResult where
  value : String
  token : Option SigningToken
  calls : List SignCall
deriving DecidableEq, Repr

/-- The claims record built in `_getSigningToken`: iss is the team, iat is
the floor of now over 1000. -/
def clientClaims (client : ApnsClient) (now : Nat) : Claims :=
  { iss := client.team, iat := now / 1000 }

/-- The config handed to `createSigner` in `_getSigningToken`: the signing
key, the fixed ES256 algorithm, and the configured key id. -/
def clientSignerConfig (client : ApnsClient) : SignerConfig :=
  { key := client.signingKey, algorithm := SIGNING_ALGORITHM,
    kid := client.keyId }

/-- The fall-through of `_getSigningToken`: build claims, invoke the signer,
store the result with the current timestamp, return it. -/
def mintToken (sign : SignerConfig → Claims → String) (now : Nat)
    (client : ApnsClient) : GetTokenResult :=
  let claims := clientClaims client now
  let config := clientSignerConfig client
  let token := sign config claims
  { value := token
    token := some { value := token, timestamp := now }
    calls := [{ config := config, claims := claims }] }

/-- `_getSigningToken` from apns.ts: reuse the cached token while its age is
below `RESET_TOKEN_INTERVAL_MS`, otherwise mint a fresh one. -/
def getSigningToken (sign : SignerConfig → Claims → String) (now : Nat)
    (client : ApnsClient) : GetTokenResult :=
  match client.token with
  | some t =>
    if now - t.timestamp < RESET_TOKEN_INTERVAL_MS then
      { value := t.value, token := some t, calls := [] }
    else
      mintToken sign now client
  | none => mintToken sign now client

/-- An ordered header map, mirroring the JS `Headers` object as used here
(all keys set are distinct lowercase names). -/
abbrev HeaderList := List (String × String)

/-- Drop every entry stored under a key. -/
def removeHeader (h : HeaderList) (k : String) : HeaderList :=
  match h with
  | [] => []
  | p :: t => if p.1 = k then removeHeader t k else p :: removeHeader t k

/-- `Headers.set`: replace any existing entry for the key and append the new
pair. -/
def headersSet (h : HeaderList) (k v : String) : HeaderList :=
  removeHeader h k ++ [(k, v)]

/-- `Headers.get`: the value stored for a key, if any. -/
def headersGet (h : HeaderList) (k : String) : Option String :=
  match h with
  | [] => none
  | p :: t => if p.1 = k then some p.2 else headersGet t k

/-- Characters `encodeURIComponent` leaves unescaped. -/
def isUnreservedURIChar (c : Char) : Bool :=
  c.isAlphanum || c = Char.ofNat 45 || c = Char.ofNat 95 || c = Char.ofNat 46 ||
    c = Char.ofNat 33 || c = Char.ofNat 126 || c = Char.ofNat 42 ||
    c = Char.ofNat 39 || c = Char.ofNat 40 || c = Char.ofNat 41

/-- Uppercase hex digit for a value below 16. -/
def hexDigitChar (n : Nat) : Char :=
  if n < 10 then Char.ofNat (48 + n) else Char.ofNat (55 + n)

/-- Percent-encode one byte as three characters. -/
def percentEncodeByte (b : UInt8) : String :=
  "%" ++ String.mk [hexDigitChar (b.toNat / 16), hexDigitChar (b.toNat % 16)]

/-- The JS `encodeURIComponent` builtin: keep unreserved characters, escape
everything else as percent-encoded UTF-8 bytes. -/
def encodeURIComponent (s : String) : String :=
  String.join (s.toList.map fun c =>
    if isUnreservedURIChar c then String.mk [c]
    else String.join (((String.mk [c]).toUTF8.toList).map percentEncodeByte))

/-- The `apns-expiration` value from `send`: a raw number is rendered with
`toFixed(0)` directly; a Date has its millisecond epoch divided by 1000 and
the quotient rendered with `toFixed(0)` (round to nearest integer). -/
def encodeExpiration : Expiration → String
  | .seconds n => toString n
  | .date ms => toString (round ((ms : ℚ) / 1000))

/-- The JS nullish-coalescing operator on optional strings. -/
def nullishCoalesce (a b : Option String) : Option String :=
  match a with
  | some x => some x
  | none => b

/-- The topic step of `send`: `options.topic ?? defaultTopic`, header set
only when the resolved value is truthy (defined and non-empty). -/
def setTopicHeader (client : ApnsClient) (n : Notification) (h : HeaderList) :
    HeaderList :=
  match nullishCoalesce n.options.topic client.defaultTopic with
  | some t => if t ≠ "" then headersSet h "apns-topic" t else h
  | none => h

/-- The priority step of `send`: header set unless priority is the
immediate sentinel. -/
def setPriorityHeader (n : Notification) (h : HeaderList) : HeaderList :=
  if n.priority ≠ Priority.immediate then
    headersSet h "apns-priority" (toString n.priority)
  else h

/-- The expiration step of `send`: header set when `options.expiration` is
defined. -/
def setExpirationHeader (n : Notification) (h : HeaderList) : HeaderList :=
  match n.options.expiration with
  | some e => headersSet h "apns-expiration" (encodeExpiration e)
  | none => h

/-- The collapse-id step of `send`: header set when `options.collapseId` is
truthy (defined and non-empty). -/
def setCollapseHeader (n : Notification) (h : HeaderList) : HeaderList :=
  match n.options.collapseId with
  | some c => if c ≠ "" then headersSet h "apns-collapse-id" c else h
  | none => h

/-- The header block of `send`, applied in source order: authorization,
apns-push-type, apns-topic, apns-priority, apns-expiration,
apns-collapse-id. -/
def buildHeaders (tokenValue : String) (client : ApnsClient)
    (n : Notification) : HeaderList :=
  setCollapseHeader n (setExpirationHeader n (setPriorityHeader n
    (setTopicHeader client n
      (headersSet
        (headersSet [] "authorization" ("bearer " ++ tokenValue))
        "apns-push-type" n.pushType))))

/-- The outbound HTTP request as assembled by `send` for `fetch`. -/
structure HttpRequest where
  method : String
  url : String
  headers : HeaderList
  body : String
  keepalive : Bool
deriving DecidableEq, Repr

/-- The request-construction part of `send`: POST to
`https://host:443/3/device/encodedDeviceToken` with the built headers, the
serialized payload as body, and the keep-alive preference. -/
def buildRequest (client : ApnsClient) (tokenValue : String)
    (n : Notification) : HttpRequest :=
  { method := "POST"
    url := "https://" ++ client.host ++ ":443/" ++ toString API_VERSION ++
      "/device/" ++ encodeURIComponent n.deviceToken
    headers := buildHeaders tokenValue client n
    body := n.payload
    keepalive := client.keepAlive }

/-- The transport response handed to `_handleServerResponse`: HTTP status
and the JSON body, `none` when `res.json()` rejects. -/
structure ServerResponse where
  status : Nat
  body : Option ApnsResponseError
deriving DecidableEq, Repr

/-- Outcome of `_handleServerResponse`: the returned notification or the
thrown `ApnsError`, the `_token` field afterwards, and the events emitted
as channel-name and payload pairs. -/
structure HandleResult where
  result : Except ApnsError Notification
  token : Option SigningToken
  emits : List (String × ApnsError)
deriving Repr

/-- `_handleServerResponse` from apns.ts: status 200 returns the
notification; otherwise parse the body (substituting an unknown-error body
with the current time on parse failure), build an `ApnsError`, clear the
cached token when the reason is the expired-provider-token code, emit on the
reason-specific and generic channels, and throw.  Emission is modelled as
pure event data (the spec models the emitter as observer lists where
emitting never throws). -/
def handleServerResponse (now : Nat) (res : ServerResponse)
    (n : Notification) (token : Option SigningToken) : HandleResult :=
  if res.status = 200 then
    { result := .ok n, token := token, emits := [] }
  else
    let responseError := res.body.getD
      { reason := Errors.unknownError, timestamp := some now }
    let error : ApnsError :=
      { statusCode := res.status
        notification := n
        reason := responseError.reason
        timestamp := responseError.timestamp }
    let token := if error.reason = Errors.expiredProviderToken then none else token
    { result := .error error
      token := token
      emits := [(error.reason, error), (Errors.error, error)] }

/-- The outcome of one `send` as seen by its caller, given the transport
response for that notification. -/
def sendOutcome (now : Nat) (res : ServerResponse) (n : Notification)
    (token : Option SigningToken) : Except ApnsError Notification :=
  (handleServerResponse now res n token).result

/-- One position of the `sendMany` result: the delivered notification, or
the catch-handler object wrapping the error. -/
inductive SendManyItem where
  | ok (n : Notification)
  | err (error : ApnsError)
deriving DecidableEq, Repr

/-- `sendMany` from apns.ts: map each notification to its `send` outcome,
converting a rejection into an error object; `Promise.all` keeps results
positionally aligned with the input. -/
def sendMany (now : Nat) (transport : Notification → ServerResponse)
    (token : Option SigningToken) (notifications : List Notification) :
    List SendManyItem :=
  notifications.map fun n =>
    match sendOutcome now (transport n) n token with
    | .ok m => .ok m
    | .error e => .err e

/-! Sample data used by witness theorems. -/

/-- A sample client configuration with a cached token minted at time 0. -/
def sampleClient : ApnsClient :=
  { team := "T1"
    keyId := "K1"
    signingKey := "PEM"
    defaultTopic := none
    host := Host.production
    keepAlive := true
    token := some { value := "cached", timestamp := 0 } }

/-- A sample notification. -/
def sampleNotification : Notification :=
  { deviceToken := "device1"
    pushType := "alert"
    priority := 5
    options := {}
    payload := "p" }

/-- A sample notification whose topic is the empty string. -/
def emptyTopicNotification : Notification :=
  { deviceToken := "device2"
    pushType := "alert"
    priority := 10
    options := { topic := some "" }
    payload := "p" }

/-- A sample signer returning a fixed string. -/
def sampleSign : SignerConfig → Claims → String := fun _ _ => "signed"

/-- A sample notification carrying an explicit topic. -/
def topicNotification : Notification :=
  { deviceToken := "device3"
    pushType := "background"
    priority := 10
    options := { topic := some "news" }
    payload := "p" }

/-- A sample non-200 response whose body names the expired-provider-token
reason. -/
def expiredResponse : ServerResponse :=
  { status := 403
    body := some { reason := "ExpiredProviderToken", timestamp := none } }

/-- A sample transport: device1 is accepted, everything else is rejected
with a bad-device-token body. -/
def sampleTransport : Notification → ServerResponse := fun n =>
  if n.deviceToken = "device1" then { status := 200, body := none }
  else
    { status := 400
      body := some { reason := "BadDeviceToken", timestamp := some 1700000000000 } }

end Apns

namespace Apns

theorem removeHeader_cons (p : String × String) (t : HeaderList) (k : String) :
    removeHeader (p :: t) k =
      if p.1 = k then removeHeader t k else p :: removeHeader t k := rfl

theorem headersGet_cons (p : String × String) (t : HeaderList) (k : String) :
    headersGet (p :: t) k = if p.1 = k then some p.2 else headersGet t k := rfl

theorem headersGet_headersSet_self (h : HeaderList) (k v : String) :
    headersGet (headersSet h k v) k = some v := by
  induction h with
  | nil => simp [headersSet, removeHeader, headersGet]
  | cons p t ih =>
    unfold headersSet at ih ⊢
    rw [removeHeader_cons]
    by_cases hp : p.1 = k
    · rw [if_pos hp]; exact ih
    · rw [if_neg hp, List.cons_append, headersGet_cons, if_neg hp]; exact ih

theorem headersGet_headersSet_other (h : HeaderList) (k k' v : String)
    (hne : k ≠ k') : headersGet (headersSet h k' v) k = headersGet h k := by
  induction h with
  | nil =>
    show headersGet ([] ++ [(k', v)]) k = headersGet [] k
    rw [List.nil_append, headersGet_cons, if_neg (Ne.symm hne)]
  | cons p t ih =>
    unfold headersSet at ih ⊢
    rw [removeHeader_cons]
    by_cases hp : p.1 = k'
    · rw [if_pos hp, ih, headersGet_cons,
        if_neg fun hh => hne (hh.symm.trans hp)]
    · rw [if_neg hp, List.cons_append, headersGet_cons, headersGet_cons]
      by_cases hpk : p.1 = k
      · rw [if_pos hpk, if_pos hpk]
      · rw [if_neg hpk, if_neg hpk]; exact ih

theorem headersGet_setTopicHeader_other (client : ApnsClient)
    (n : Notification) (h : HeaderList) (k : String) (hk : k ≠ "apns-topic") :
    headersGet (setTopicHeader client n h) k = headersGet h k := by
  unfold setTopicHeader
  cases nullishCoalesce n.options.topic client.defaultTopic with
  | none => rfl
  | some t =>
    by_cases ht : t = "" <;>
      simp [ht, headersGet_headersSet_other _ _ _ _ hk]

theorem headersGet_setPriorityHeader_other (n : Notification) (h : HeaderList)
    (k : String) (hk : k ≠ "apns-priority") :
    headersGet (setPriorityHeader n h) k = headersGet h k := by
  unfold setPriorityHeader
  by_cases hp : n.priority = Priority.immediate <;>
    simp [hp, headersGet_headersSet_other _ _ _ _ hk]

theorem headersGet_setExpirationHeader_other (n : Notification)
    (h : HeaderList) (k : String) (hk : k ≠ "apns-expiration") :
    headersGet (setExpirationHeader n h) k = headersGet h k := by
  unfold setExpirationHeader
  cases n.options.expiration with
  | none => rfl
  | some e => simp [headersGet_headersSet_other _ _ _ _ hk]

theorem headersGet_setCollapseHeader_other (n : Notification)
    (h : HeaderList) (k : String) (hk : k ≠ "apns-collapse-id") :
    headersGet (setCollapseHeader n h) k = headersGet h k := by
  unfold setCollapseHeader
  cases n.options.collapseId with
  | none => rfl
  | some c =>
    by_cases hc : c = "" <;>
      simp [hc, headersGet_headersSet_other _ _ _ _ hk]

/-- C1: the token-acquisition operation reuses a cached signing token whose
age is strictly below 55 minutes verbatim, computing no new signature;
otherwise it makes exactly one signature call with claims iss = team and
iat = floor of now over 1000, algorithm ES256 and the configured key id,
stores the result with the current timestamp, and returns the new value. -/
theorem getSigningToken_spec (sign : SignerConfig → Claims → String)
    (now : Nat) (client : ApnsClient) :
    (∀ t, client.token = some t →
      now - t.timestamp < RESET_TOKEN_INTERVAL_MS →
      getSigningToken sign now client =
        { value := t.value, token := some t, calls := [] }) ∧
    ((∀ t, client.token = some t →
        RESET_TOKEN_INTERVAL_MS ≤ now - t.timestamp) →
      getSigningToken sign now client =
        { value := sign (clientSignerConfig client) (clientClaims client now),
          token := some
            { value :=
                sign (clientSignerConfig client) (clientClaims client now),
              timestamp := now },
          calls := [{ config := clientSignerConfig client,
                      claims := clientClaims client now }] }) := by
  constructor
  · intro t ht hfresh
    simp only [getSigningToken, ht, if_pos hfresh]
  · intro hstale
    cases hct : client.token with
    | none => simp only [getSigningToken, hct, mintToken]
    | some t =>
      simp only [getSigningToken, hct,
        if_neg (not_lt.mpr (hstale t hct)), mintToken]

/-- Witness for C1: a cached token minted at time 0 is returned unchanged
at time 1000 with no signature call. -/
theorem getSigningToken_spec_witness :
    getSigningToken sampleSign 1000 sampleClient =
      { value := "cached",
        token := some { value := "cached", timestamp := 0 },
        calls := [] } :=
  (getSigningToken_spec sampleSign 1000 sampleClient).1
    { value := "cached", timestamp := 0 } rfl (by decide)

/-- C2: for a non-200 response, when the classified reason is the
expired-provider-token code the cached token is cleared and any subsequent
acquisition makes a signature call regardless of elapsed time; for every
other reason code the cached token is left unchanged. -/
theorem expiredProviderToken_invalidation (now : Nat) (res : ServerResponse)
    (n : Notification) (client : ApnsClient) (hs : res.status ≠ 200) :
    ((res.body.getD
        { reason := Errors.unknownError, timestamp := some now }).reason =
          Errors.expiredProviderToken →
      (handleServerResponse now res n client.token).token = none ∧
      ∀ (sign : SignerConfig → Claims → String) (now2 : Nat),
        (getSigningToken sign now2
          { client with
            token := (handleServerResponse now res n client.token).token
          }).calls.length = 1) ∧
    ((res.body.getD
        { reason := Errors.unknownError, timestamp := some now }).reason ≠
          Errors.expiredProviderToken →
      (handleServerResponse now res n client.token).token = client.token) := by
  unfold handleServerResponse
  rw [if_neg hs]
  constructor
  · intro hr
    constructor
    · simp [hr]
    · intro sign now2
      simp [hr, getSigningToken, mintToken]
  · intro hr
    simp [hr]

/-- Witness for C2: a 403 expired-provider-token response clears the cached
token and the next acquisition at time 1 signs anew. -/
theorem expiredProviderToken_invalidation_witness :
    (handleServerResponse 0 expiredResponse sampleNotification
      sampleClient.token).token = none ∧
    (getSigningToken sampleSign 1
      { sampleClient with
        token := (handleServerResponse 0 expiredResponse sampleNotification
          sampleClient.token).token }).calls.length = 1 := by
  have h := (expiredProviderToken_invalidation 0 expiredResponse
    sampleNotification sampleClient (by decide)).1 rfl
  exact ⟨h.1, h.2 sampleSign 1⟩

/-- C3: classifying a 200 response returns the original notification
unchanged; classifying a non-200 response with a parseable body carrying a
reason and timestamp yields a DeliveryError with the same status code, that
reason, and the rejected notification. -/
theorem handleServerResponse_roundtrip (now : Nat) (res : ServerResponse)
    (n : Notification) (token : Option SigningToken) :
    (res.status = 200 →
      (handleServerResponse now res n token).result = .ok n) ∧
    (res.status ≠ 200 → ∀ body, res.body = some body →
      (handleServerResponse now res n token).result =
        .error { statusCode := res.status, notification := n,
                 reason := body.reason, timestamp := body.timestamp }) := by
  constructor
  · intro h200
    simp [handleServerResponse, h200]
  · intro hs body hb
    unfold handleServerResponse
    rw [if_neg hs]
    simp [hb]

/-- Witness for C3: a 200 response returns the notification; a 400 response
with a bad-device-token body yields the matching DeliveryError. -/
theorem handleServerResponse_roundtrip_witness :
    (handleServerResponse 0 { status := 200, body := none }
      sampleNotification none).result = .ok sampleNotification ∧
    (handleServerResponse 0
      { status := 400
        body := some { reason := "BadDeviceToken",
                       timestamp := some 1700000000000 } }
      sampleNotification none).result =
      .error { statusCode := 400, notification := sampleNotification,
               reason := "BadDeviceToken",
               timestamp := some 1700000000000 } := by
  constructor
  · exact (handleServerResponse_roundtrip 0
      { status := 200, body := none } sampleNotification none).1 rfl
  · exact (handleServerResponse_roundtrip 0
      { status := 400
        body := some { reason := "BadDeviceToken",
                       timestamp := some 1700000000000 } }
      sampleNotification none).2 (by decide) _ rfl

/-- C5: for a non-200 response whose body fails to parse, classification
substitutes a synthetic body with the unknown-error reason and the current
time, and yields a DeliveryError built from it and the actual status. -/
theorem handleServerResponse_parseFailure (now : Nat) (res : ServerResponse)
    (n : Notification) (token : Option SigningToken)
    (hs : res.status ≠ 200) (hb : res.body = none) :
    (handleServerResponse now res n token).result =
      .error { statusCode := res.status, notification := n,
               reason := Errors.unknownError, timestamp := some now } := by
  unfold handleServerResponse
  rw [if_neg hs]
  simp [hb]

/-- Witness for C5: an unparseable 500 body becomes an unknown-error
DeliveryError stamped with the current time. -/
theorem handleServerResponse_parseFailure_witness :
    (handleServerResponse 42 { status := 500, body := none }
      sampleNotification none).result =
      .error { statusCode := 500, notification := sampleNotification,
               reason := Errors.unknownError, timestamp := some 42 } :=
  handleServerResponse_parseFailure 42 { status := 500, body := none }
    sampleNotification none (by decide) rfl

/-- C4: `sendMany` yields one result per input at the same position: a
successful send leaves the notification there, a failed send leaves an
error object there, and a failure never aborts the batch. -/
theorem sendMany_spec (now : Nat) (transport : Notification → ServerResponse)
    (token : Option SigningToken) (notifications : List Notification) :
    (sendMany now transport token notifications).length =
      notifications.length ∧
    ∀ i, i < notifications.length →
      (∀ m, (∀ hi : i < notifications.length,
          sendOutcome now (transport notifications[i]) notifications[i]
            token = .ok m) →
        (sendMany now transport token notifications)[i]? =
          some (.ok m)) ∧
      (∀ e, (∀ hi : i < notifications.length,
          sendOutcome now (transport notifications[i]) notifications[i]
            token = .error e) →
        (sendMany now transport token notifications)[i]? =
          some (.err e)) := by
  constructor
  · exact List.length_map _ _
  · intro i hi
    have hmap : (sendMany now transport token notifications)[i]? =
        (notifications[i]?).map fun n =>
          match sendOutcome now (transport n) n token with
          | .ok m => SendManyItem.ok m
          | .error e => SendManyItem.err e := by
      unfold sendMany
      rw [List.getElem?_map]
    have hidx : notifications[i]? = some notifications[i] :=
      List.getElem?_eq_getElem hi
    constructor
    · intro m hm
      rw [hmap, hidx, Option.map_some', hm hi]
    · intro e he
      rw [hmap, hidx, Option.map_some', he hi]

/-- Witness for C4: a two-element batch where the first send succeeds and
the second fails resolves to a success and an error object in input
order. -/
theorem sendMany_spec_witness :
    (sendMany 0 sampleTransport none
      [sampleNotification, emptyTopicNotification]).length = 2 ∧
    (sendMany 0 sampleTransport none
      [sampleNotification, emptyTopicNotification])[0]? =
      some (.ok sampleNotification) ∧
    (sendMany 0 sampleTransport none
      [sampleNotification, emptyTopicNotification])[1]? =
      some (.err { statusCode := 400,
                   notification := emptyTopicNotification,
                   reason := "BadDeviceToken",
                   timestamp := some 1700000000000 }) := by
  have h := sendMany_spec 0 sampleTransport none
    [sampleNotification, emptyTopicNotification]
  refine ⟨h.1, ?_, ?_⟩
  · exact ((h.2 0 (by decide)).1 sampleNotification fun _ => rfl)
  · exact ((h.2 1 (by decide)).2
      { statusCode := 400, notification := emptyTopicNotification,
        reason := "BadDeviceToken", timestamp := some 1700000000000 }
      fun _ => rfl)

/-- C6: a notification with the immediate priority sentinel produces no
apns-priority header; any other priority value produces the header with the
numeric value rendered as a string. -/
theorem apnsPriority_header (tokenValue : String) (client : ApnsClient)
    (n : Notification) :
    (n.priority = Priority.immediate →
      headersGet (buildHeaders tokenValue client n) "apns-priority" =
        none) ∧
    (n.priority ≠ Priority.immediate →
      headersGet (buildHeaders tokenValue client n) "apns-priority" =
        some (toString n.priority)) := by
  have hpass : ∀ h : HeaderList,
      headersGet (setCollapseHeader n (setExpirationHeader n h))
        "apns-priority" = headersGet h "apns-priority" := by
    intro h
    rw [headersGet_setCollapseHeader_other n _ _ (by decide),
        headersGet_setExpirationHeader_other n _ _ (by decide)]
  constructor
  · intro hp
    unfold buildHeaders
    rw [hpass]
    unfold setPriorityHeader
    rw [if_neg fun hcon => hcon hp,
        headersGet_setTopicHeader_other _ _ _ _ (by decide),
        headersGet_headersSet_other _ _ _ _ (by decide),
        headersGet_headersSet_other _ _ _ _ (by decide)]
    rfl
  · intro hp
    unfold buildHeaders
    rw [hpass]
    unfold setPriorityHeader
    rw [if_pos hp, headersGet_headersSet_self]

/-- Witness for C6: an immediate-priority notification has no apns-priority
header; a priority-5 notification carries the header value 5. -/
theorem apnsPriority_header_witness :
    headersGet (buildHeaders "tok" sampleClient emptyTopicNotification)
      "apns-priority" = none ∧
    headersGet (buildHeaders "tok" sampleClient sampleNotification)
      "apns-priority" = some "5" := by
  constructor
  · exact (apnsPriority_header "tok" sampleClient
      emptyTopicNotification).1 rfl
  · exact (apnsPriority_header "tok" sampleClient sampleNotification).2
      (by decide)

/-- C7: a raw epoch-seconds expiration and a calendar instant whose
millisecond epoch divided by 1000 equals that number produce identical
apns-expiration header strings. -/
theorem apnsExpiration_equiv (n ms : Nat) (h : ms = 1000 * n) :
    encodeExpiration (.date ms) = encodeExpiration (.seconds n) := by
  subst h
  simp only [encodeExpiration]
  have h1 : ((1000 * n : Nat) : ℚ) / 1000 = (n : ℚ) := by
    push_cast
    rw [mul_comm, mul_div_assoc]
    norm_num
  rw [h1, round_natCast]
  rfl

/-- Witness for C7: 7000 milliseconds and 7 raw seconds encode alike. -/
theorem apnsExpiration_equiv_witness :
    encodeExpiration (.date 7000) = encodeExpiration (.seconds 7) :=
  apnsExpiration_equiv 7 7000 rfl

/-- C8 (amended): the apns-topic header equals options.topic when that is
present and non-empty; when options.topic is absent it equals defaultTopic
when that is present and non-empty; it is omitted when the resolved value
is absent or the empty string (an empty string counts as unset). -/
theorem apnsTopic_header (tokenValue : String) (client : ApnsClient)
    (n : Notification) :
    (∀ t, n.options.topic = some t → t ≠ "" →
      headersGet (buildHeaders tokenValue client n) "apns-topic" =
        some t) ∧
    (n.options.topic = some "" →
      headersGet (buildHeaders tokenValue client n) "apns-topic" = none) ∧
    (n.options.topic = none → ∀ d, client.defaultTopic = some d → d ≠ "" →
      headersGet (buildHeaders tokenValue client n) "apns-topic" =
        some d) ∧
    (n.options.topic = none → client.defaultTopic = some "" →
      headersGet (buildHeaders tokenValue client n) "apns-topic" = none) ∧
    (n.options.topic = none → client.defaultTopic = none →
      headersGet (buildHeaders tokenValue client n) "apns-topic" =
        none) := by
  have hpass : ∀ h : HeaderList,
      headersGet (setCollapseHeader n (setExpirationHeader n
        (setPriorityHeader n h))) "apns-topic" =
        headersGet h "apns-topic" := by
    intro h
    rw [headersGet_setCollapseHeader_other n _ _ (by decide),
        headersGet_setExpirationHeader_other n _ _ (by decide),
        headersGet_setPriorityHeader_other n _ _ (by decide)]
  have hbase : headersGet
      (headersSet (headersSet [] "authorization" ("bearer " ++ tokenValue))
        "apns-push-type" n.pushType) "apns-topic" = none := by
    rw [headersGet_headersSet_other _ _ _ _ (by decide),
        headersGet_headersSet_other _ _ _ _ (by decide)]
    rfl
  refine ⟨?_, ?_, ?_, ?_, ?_⟩
  · intro t ht hne
    unfold buildHeaders
    rw [hpass]
    unfold setTopicHeader
    rw [show nullishCoalesce n.options.topic client.defaultTopic = some t by
          rw [ht]; rfl]
    simp only [if_pos hne]
    exact headersGet_headersSet_self _ _ _
  · intro ht
    unfold buildHeaders
    rw [hpass]
    unfold setTopicHeader
    rw [show nullishCoalesce n.options.topic client.defaultTopic = some ""
          by rw [ht]; rfl]
    simp only [ne_eq, not_true_eq_false, if_false, ite_false]
    exact hbase
  · intro ht d hd hne
    unfold buildHeaders
    rw [hpass]
    unfold setTopicHeader
    rw [show nullishCoalesce n.options.topic client.defaultTopic = some d by
          rw [ht, hd]; rfl]
    simp only [if_pos hne]
    exact headersGet_headersSet_self _ _ _
  · intro ht hd
    unfold buildHeaders
    rw [hpass]
    unfold setTopicHeader
    rw [show nullishCoalesce n.options.topic client.defaultTopic = some ""
          by rw [ht, hd]; rfl]
    simp only [ne_eq, not_true_eq_false, if_false, ite_false]
    exact hbase
  · intro ht hd
    unfold buildHeaders
    rw [hpass]
    unfold setTopicHeader
    rw [show nullishCoalesce n.options.topic client.defaultTopic = none by
          rw [ht, hd]; rfl]
    exact hbase

/-- Counterexample for C8 as stated: a topic that is present but equal to
the empty string yields no apns-topic header, not a header equal to the
topic. -/
theorem apnsTopic_header_counterexample :
    emptyTopicNotification.options.topic = some "" ∧
    headersGet (buildHeaders "tok" sampleClient emptyTopicNotification)
      "apns-topic" = none ∧
    headersGet (buildHeaders "tok" sampleClient emptyTopicNotification)
      "apns-topic" ≠ some "" := by
  refine ⟨rfl, by decide, by decide⟩

/-- Witness for amended C8: a non-empty explicit topic lands in the header
even when the client has no default topic. -/
theorem apnsTopic_header_witness :
    headersGet (buildHeaders "tok" sampleClient topicNotification)
      "apns-topic" = some "news" :=
  (apnsTopic_header "tok" sampleClient topicNotification).1 "news" rfl
    (by decide)

/-- C9: every failed send emits its DeliveryError once on the channel named
by the specific reason and once on the generic error channel, and then
raises it; emission is a total function of the response, throwing nothing
of its own. -/
theorem error_emission (now : Nat) (res : ServerResponse)
    (n : Notification) (token : Option SigningToken) (hs : res.status ≠ 200) :
    ∃ e : ApnsError,
      (handleServerResponse now res n token).emits =
        [(e.reason, e), (Errors.error, e)] ∧
      (handleServerResponse now res n token).result = .error e := by
  unfold handleServerResponse
  rw [if_neg hs]
  exact ⟨_, rfl, rfl⟩

/-- Witness for C9: a failed 400 send emits on its reason channel and on
the generic channel, then raises. -/
theorem error_emission_witness :
    ∃ e : ApnsError,
      (handleServerResponse 0
        { status := 400
          body := some { reason := "BadDeviceToken", timestamp := none } }
        sampleNotification none).emits =
        [(e.reason, e), (Errors.error, e)] ∧
      (handleServerResponse 0
        { status := 400
          body := some { reason := "BadDeviceToken", timestamp := none } }
        sampleNotification none).result = .error e :=
  error_emission 0
    { status := 400
      body := some { reason := "BadDeviceToken", timestamp := none } }
    sampleNotification none (by decide)

/-- C10: the requestTimeout option is never read: two configurations
differing only in requestTimeout produce the same client state and the same
outbound request, and the client applies no timeout of its own. -/
theorem requestTimeout_noninterference (o : ApnsOptions)
    (t1 t2 : Option Nat) :
    mkApnsClient { o with requestTimeout := t1 } =
      mkApnsClient { o with requestTimeout := t2 } ∧
    ∀ (sign : SignerConfig → Claims → String) (now : Nat)
      (n : Notification),
      buildRequest (mkApnsClient { o with requestTimeout := t1 })
        (getSigningToken sign now
          (mkApnsClient { o with requestTimeout := t1 })).value n =
      buildRequest (mkApnsClient { o with requestTimeout := t2 })
        (getSigningToken sign now
          (mkApnsClient { o with requestTimeout := t2 })).value n :=
  ⟨rfl, fun _ _ _ => rfl⟩

end Apns
